import Mathlib

/-!
# Verification of the localhome daemon routing and proxy core

A shallow embedding, in Lean 4, of the connection-routing, HTTP-proxying,
mapping-cache, certificate-issuance and WebSocket-bridging logic of the
localhome daemon (`src/index.ts` and `src/certs.ts`), together with theorems
settling the specification claims about it.

Strings from the JavaScript runtime are modelled by Lean `String`; the
JS string primitives used by the daemon (`split(":")[0]`, `endsWith`,
`slice(0, -n)`, `toLowerCase`) are modelled by structurally recursive
character-list operations with identical semantics, so that all definitions
evaluate inside the kernel.

Effects are made explicit: the network is an oracle
`Request → Except String Response` (an `Except.error` is a thrown transport
failure), key generation is an oracle `Nat → Nat` indexed by an invocation
counter, and module-level mutable state (`mappingCache`/`lastScan`,
`certCache`) is threaded as explicit state values.
-/

namespace Localhome

/-! ## String primitives (JS semantics) -/

/-- JS `s.toLowerCase()` (ASCII as used here). -/
def lowerStr (s : String) : String := ⟨s.data.map Char.toLower⟩

/-- JS `host.split(":")[0]`: the longest colon-free leading segment
(`index.ts` line 37). -/
def stripPort (host : String) : String := ⟨host.data.takeWhile (fun c => c != ':')⟩

/-- JS `s.endsWith(sfx)`. -/
def strEndsWith (s sfx : String) : Bool := sfx.data.isSuffixOf s.data

/-- JS `s.slice(0, -n)` for `0 < n ≤ s.length`: drop the last `n` characters. -/
def strDropRight (s : String) (n : Nat) : String := ⟨s.data.take (s.data.length - n)⟩

/-! ## HTTP data model -/

/-- A request, with the components of its URL broken out
(`new URL(req.url)` exposes hostname, port, pathname, search). The body is
kept abstract as an optional byte list; `redirect` is the fetch redirect
mode of the request (`"follow"` by default, `"manual"` for no auto-follow). -/
structure Request where
  scheme : String
  host : String
  port : Nat
  path : String
  query : String
  method : String
  headers : List (String × String)
  body : Option (List Nat)
  redirect : String
deriving DecidableEq, Repr

structure Response where
  status : Nat
  headers : List (String × String)
  body : String
deriving DecidableEq, Repr

/-- `Headers.get(name)`: header names compare case-insensitively. -/
def headersGet (hs : List (String × String)) (name : String) : Option String :=
  (hs.find? (fun p => lowerStr p.1 == lowerStr name)).map (fun p => p.2)

/-- `Headers.delete(name)`: removes every entry whose name matches
case-insensitively. -/
def headersDelete (hs : List (String × String)) (name : String) :
    List (String × String) :=
  hs.filter (fun p => !(lowerStr p.1 == lowerStr name))

/-! ## Connection router (`index.ts` lines 33-46 and 146-182) -/

/-- The hostname-classification part of `extractSubdomain`: given the
hostname with the port already stripped, return the subdomain, or `none`
for the dashboard host (`index.ts` lines 40-45). -/
def subdomainOfHostname (hostname : String) : Option String :=
  if hostname = "localhost" then none
  else if !(strEndsWith hostname ".localhost") then none
  else
    let subdomain := strDropRight hostname (".localhost".length)
    if subdomain = "" then none else some subdomain

/-- `extractSubdomain(host)` (`index.ts` lines 33-46): `null` Host gives
`null`; otherwise strip the port and classify the hostname. -/
def extractSubdomain : Option String → Option String
  | none => none
  | some h => subdomainOfHostname (stripPort h)

/-- `isWebSocketUpgrade(req)` (`index.ts` lines 133-136). -/
def isWebSocketUpgrade (req : Request) : Bool :=
  match headersGet req.headers "upgrade" with
  | none => false
  | some u => lowerStr u = "websocket"

/-- How the `fetch` handler (`index.ts` lines 146-182) dispatches a request:
dashboard, 404, WebSocket upgrade, or HTTP proxy.  The `p = 0` test mirrors
the JS truthiness test `if (!targetPort)`, which also treats a mapped port
`0` as unmapped. -/
inductive RouteResult where
  | dashboard
  | notFound (subdomain : String)
  | wsUpgrade (subdomain : String) (targetPort : Nat)
  | proxy (subdomain : String) (targetPort : Nat)
deriving DecidableEq, Repr

/-- The routing decision of the `fetch` handler (`index.ts` lines 146-182),
as a function of the upgrade flag, the current mapping snapshot, and the
`Host` header. -/
def route (isWsReq : Bool) (mapping : List (String × Nat)) (host : Option String) :
    RouteResult :=
  match extractSubdomain host with
  | none => .dashboard
  | some subdomain =>
    if subdomain = "_" then .dashboard
    else
      match mapping.lookup subdomain with
      | none => .notFound subdomain
      | some p =>
        if p = 0 then .notFound subdomain
        else if isWsReq then .wsUpgrade subdomain p else .proxy subdomain p

/-! ## HTTP proxy bridge (`index.ts` lines 51-75) -/

/-- The outbound request built by `proxyRequest` (`index.ts` lines 52-67):
URL rewritten to `localhost:targetPort`, conditional request headers
stripped, redirect mode `"manual"`; method, body, scheme, path and query
are carried over. -/
def buildProxyRequest (req : Request) (targetPort : Nat) : Request :=
  { req with
    host := "localhost"
    port := targetPort
    headers := headersDelete (headersDelete req.headers "If-None-Match")
      "If-Modified-Since"
    redirect := "manual" }

/-- `proxyRequest(req, targetPort)` (`index.ts` lines 51-75), with the
network as an explicit oracle: on a thrown transport failure `e` it returns
a 502 whose body is `Failed to proxy to port ${targetPort}: ${e}`. -/
def proxyRequest (network : Request → Except String Response) (req : Request)
    (targetPort : Nat) : Response :=
  match network (buildProxyRequest req targetPort) with
  | .ok resp => resp
  | .error e =>
    { status := 502, headers := [],
      body := "Failed to proxy to port " ++ toString targetPort ++ ": " ++ e }

/-! ## Mapping cache (`index.ts` lines 8-27)

`mappingCache` and `lastScan` are module-level mutable variables; they are
threaded here as an explicit state, instrumented with a count of
`buildMapping` scans issued so that refresh-triggering is observable.
Times are integers (milliseconds since the epoch).  -/

def CACHE_TTL_MS : Int := 5000

/-- The daemon's mutable state around `getMapping` (`index.ts` lines 11-12),
plus the number of `buildMapping()` invocations issued so far. -/
structure DaemonState where
  mappingCache : List (String × Nat)
  lastScan : Int
  scansIssued : Nat
deriving DecidableEq, Repr

/-- The state at daemon startup: empty mapping, `lastScan = 0`. -/
def initialDaemonState : DaemonState :=
  { mappingCache := [], lastScan := 0, scansIssued := 0 }

/-- `getMapping()` (`index.ts` lines 20-27) run to completion with no
interleaving: read `now`, and if `now - lastScan > CACHE_TTL_MS` issue one
scan, replace the cache wholesale by its result and set `lastScan := now`;
otherwise return the cached snapshot unchanged. -/
def getMapping (buildResult : List (String × Nat)) (now : Int) (st : DaemonState) :
    List (String × Nat) × DaemonState :=
  if now - st.lastScan > CACHE_TTL_MS then
    (buildResult,
     { mappingCache := buildResult, lastScan := now,
       scansIssued := st.scansIssued + 1 })
  else (st.mappingCache, st)

/-- The JS event-loop granularity of `getMapping`: the synchronous prefix up
to the `await` runs atomically (`check`, which performs the staleness test
and, when stale, calls `buildMapping()`), and the continuation after the
scan's promise resolves runs later (`resolve`, which assigns `mappingCache`
and then `lastScan` with the `now` captured by its `check`).  `lastScan` is
only assigned after the `await` (`index.ts` lines 23-24). -/
inductive MapEvent where
  | check (now : Int) (buildResult : List (String × Nat))
  | resolve (now : Int) (buildResult : List (String × Nat))
deriving DecidableEq, Repr

def mapStep (st : DaemonState) : MapEvent → DaemonState
  | .check now _ =>
    if now - st.lastScan > CACHE_TTL_MS then
      { st with scansIssued := st.scansIssued + 1 }
    else st
  | .resolve now buildResult =>
    { st with mappingCache := buildResult, lastScan := now }

/-- Run a sequence of interleaved `getMapping` fragments. -/
def mapRun (st : DaemonState) (es : List MapEvent) : DaemonState :=
  es.foldl mapStep st

/-! ## The server fetch handler (`index.ts` lines 146-182) -/

/-- The dashboard response (`renderDashboard`, `index.ts` lines 125-127):
status 200 with an HTML body (the body itself is rendered from the external
scanner and is abstracted as a parameter). -/
def dashboardResponse (html : String) : Response :=
  { status := 200, headers := [("Content-Type", "text/html; charset=utf-8")],
    body := html }

/-- The 404 response (`index.ts` lines 159-163). -/
def notFoundResponse (subdomain : String) : Response :=
  { status := 404, headers := [],
    body := "No server found for \"" ++ subdomain ++ ".localhost\"\n" }

/-- The response produced by the `fetch` handler for a request, given the
network oracle, the rendered dashboard HTML, whether a WebSocket upgrade
attempt succeeds, and the current mapping snapshot.  A successful upgrade
hands the connection to the WebSocket bridge (no HTTP response; modelled as
status 101); a failed one is a 400 (`index.ts` lines 175-177). -/
def serve (network : Request → Except String Response) (dashboardHtml : String)
    (upgradeOk : Bool) (mapping : List (String × Nat)) (req : Request) : Response :=
  match route (isWebSocketUpgrade req) mapping (headersGet req.headers "host") with
  | .dashboard => dashboardResponse dashboardHtml
  | .notFound subdomain => notFoundResponse subdomain
  | .wsUpgrade _ _ =>
    if upgradeOk then { status := 101, headers := [], body := "" }
    else { status := 400, headers := [], body := "WebSocket upgrade failed" }
  | .proxy _ p => proxyRequest network req p

/-! ## Certificate issuance (`certs.ts`)

`forge.pki.rsa.generateKeyPair` draws fresh randomness on each invocation;
this is modelled by an explicit randomness source `rnd : Nat → Nat` indexed
by an invocation counter carried in the state.  The PEM encodings
(`certificateToPem`, `privateKeyToPem`) are deterministic functions of the
certificate and key values, so byte-identity of PEM output is equality of
the modelled values. -/

/-- Abstract RSA key-pair material, as produced by
`forge.pki.rsa.generateKeyPair(bits)`. -/
structure KeyPair where
  material : Nat
  bits : Nat
deriving DecidableEq, Repr

/-- `forge.pki.rsa.generateKeyPair(bits)` at invocation number `k` of the
randomness source `rnd`. -/
def generateKeyPair (rnd : Nat → Nat) (bits k : Nat) : KeyPair :=
  { material := rnd k, bits := bits }

/-- The loaded mkcert CA (`caCert`/`caKey`, `certs.ts` lines 11-12),
abstracted to its subject and private key. -/
structure CA where
  subject : String
  privateKey : Nat
deriving DecidableEq, Repr

/-- The fields `getCert` sets on a leaf certificate
(`certs.ts` lines 85-109). -/
structure Certificate where
  publicKeyMaterial : Nat
  keyBits : Nat
  serialNumber : String
  notBefore : Nat
  notAfter : Nat
  subjectCN : String
  sanDNSNames : List String
  issuer : String
  basicConstraintsCA : Bool
  keyUsageDigitalSignature : Bool
  keyUsageKeyEncipherment : Bool
  extKeyUsageServerAuth : Bool
  signedWithKey : Nat
  signatureHash : String
deriving DecidableEq, Repr

/-- JS `n.toString(16)` for a non-negative integer (`Date.now().toString(16)`,
`certs.ts` line 87). -/
def hexString (n : Nat) : String := ⟨Nat.toDigits 16 n⟩

/-- The certificate value built by `getCert` on a cache miss
(`certs.ts` lines 85-109): serial from the current time, validity
`now … now + 365 days`, subject CN and SAN DNS entry the hostname, issuer
the CA subject, the fixed extension set, signed with the CA key and
SHA-256. -/
def makeLeafCert (ca : CA) (keys : KeyPair) (now : Nat) (hostname : String) :
    Certificate :=
  { publicKeyMaterial := keys.material
    keyBits := keys.bits
    serialNumber := hexString now
    notBefore := now
    notAfter := now + 365 * 24 * 60 * 60 * 1000
    subjectCN := hostname
    sanDNSNames := [hostname]
    issuer := ca.subject
    basicConstraintsCA := false
    keyUsageDigitalSignature := true
    keyUsageKeyEncipherment := true
    extKeyUsageServerAuth := true
    signedWithKey := ca.privateKey
    signatureHash := "sha256" }

/-- The per-hostname cached value (`certCache`, `certs.ts` line 14): the
certificate PEM and private-key PEM are deterministic encodings of these
two components. -/
structure CertEntry where
  cert : Certificate
  key : KeyPair
deriving DecidableEq, Repr

/-- The module-level mutable state of `certs.ts`: the certificate cache and
the randomness position of the key generator. -/
structure CertState where
  certCache : List (String × CertEntry)
  rngCounter : Nat
deriving DecidableEq, Repr

def initialCertState : CertState := { certCache := [], rngCounter := 0 }

/-- `getCert(hostname)` (`certs.ts` lines 76-118) with the CA, randomness
source and current time explicit: `none` when no CA is loaded; the cached
entry on a cache hit; otherwise generate a 2048-bit key pair, build and sign
the leaf, cache the result and return it. -/
def getCert (ca : Option CA) (rnd : Nat → Nat) (now : Nat) (hostname : String)
    (st : CertState) : Option CertEntry × CertState :=
  match ca with
  | none => (none, st)
  | some ca =>
    match st.certCache.lookup hostname with
    | some cached => (some cached, st)
    | none =>
      let keys := generateKeyPair rnd 2048 st.rngCounter
      let result : CertEntry :=
        { cert := makeLeafCert ca keys now hostname, key := keys }
      (some result,
       { certCache := (hostname, result) :: st.certCache,
         rngCounter := st.rngCounter + 1 })

/-! ## WebSocket bridge (`index.ts` lines 184-244)

The two sockets of a bridged pair are event-driven; the embedding gives, for
each event, the list of actions the registered listeners perform. -/

inductive WsData where
  | text (s : String)
  | binary (bytes : List Nat)
deriving DecidableEq, Repr

inductive WsAction where
  | sendClient (d : WsData)
  | sendBackend (d : WsData)
  | closeClient (code : Nat) (reason : String)
  | closeBackend (code : Nat) (reason : String)
  | removePair
deriving DecidableEq, Repr

/-- Events on the backend WebSocket for which `websocket.open` registers
listeners (`index.ts` lines 194-223). -/
inductive BackendEvent where
  | opened
  | message (d : WsData)
  | close (code : Nat) (reason : String)
  | error
deriving DecidableEq, Repr

/-- Events on the client WebSocket.  The Bun websocket handler object
(`index.ts` lines 184-244) registers `open`, `message` and `close` callbacks
only; there is no client-side `error` callback. -/
inductive ClientEvent where
  | message (d : WsData)
  | close (code : Nat) (reason : String)
  | error
deriving DecidableEq, Repr

/-- Actions of the backend-socket listeners (`index.ts` lines 194-223):
messages are forwarded to the client (binary payloads materialized to
bytes), a backend close closes the client with the same code and reason,
and a backend error closes the client with code 1011 and the fixed reason
`Backend error`. -/
def backendHandlers : BackendEvent → List WsAction
  | .opened => []
  | .message d => [.sendClient d]
  | .close code reason => [.closeClient code reason]
  | .error => [.closeClient 1011 "Backend error"]

/-- Actions of the Bun websocket callbacks for a client event
(`index.ts` lines 226-243), given whether this client has a paired backend
in `wsBackends` and whether that backend connection is OPEN: a client
message is forwarded only to an open paired backend; a client close closes
the paired backend with the same code and reason and removes the pair; a
client-side transport error dispatches to no registered callback and
performs no action. -/
def clientHandlers (hasPair backendOpen : Bool) : ClientEvent → List WsAction
  | .message d => if hasPair && backendOpen then [.sendBackend d] else []
  | .close code reason =>
    if hasPair then [.closeBackend code reason, .removePair] else []
  | .error => []

end Localhome

namespace Localhome

/-! ## Routing lemmas -/

theorem strEndsWith_append (a b : String) : strEndsWith (a ++ b) b = true := by
  unfold strEndsWith
  rw [String.data_append]
  exact List.isSuffixOf_iff_suffix.mpr (List.suffix_append _ _)

theorem strDropRight_append (a b : String) : strDropRight (a ++ b) b.length = a := by
  apply String.ext
  show (a ++ b).data.take ((a ++ b).data.length - b.length) = a.data
  rw [String.data_append, List.length_append]
  have hb : b.length = b.data.length := rfl
  rw [hb, Nat.add_sub_cancel, List.take_left]

theorem append_ne_of_length (a b c : String) (h : a.length + b.length ≠ c.length) :
    a ++ b ≠ c := by
  intro he
  have hl := congrArg String.length he
  rw [String.length_append] at hl
  exact h hl

/-- A hostname of the form `<name>.localhost` with non-empty `<name>`
classifies as the subdomain `<name>`. -/
theorem subdomainOfHostname_append (name : String) (hne : name ≠ "") :
    subdomainOfHostname (name ++ ".localhost") = some name := by
  have h1 : name ++ ".localhost" ≠ "localhost" := by
    apply append_ne_of_length
    have h10 : (".localhost" : String).length = 10 := by decide
    have h9 : ("localhost" : String).length = 9 := by decide
    rw [h10, h9]
    omega
  have h2 : strEndsWith (name ++ ".localhost") ".localhost" = true :=
    strEndsWith_append name ".localhost"
  have h3 : strDropRight (name ++ ".localhost") (".localhost".length) = name :=
    strDropRight_append name ".localhost"
  simp only [subdomainOfHostname, if_neg h1, h2, Bool.not_true, if_neg (by decide : ¬(false = true)), h3]
  simp [hne]

example : extractSubdomain (some "paper.localhost:9999") = some "paper" := by decide
example : extractSubdomain (some "localhost:9999") = none := by decide
example : extractSubdomain (some "example.com") = none := by decide
example : extractSubdomain (some "_.localhost:9999") = some "_" := by decide
example : extractSubdomain (some ".localhost") = none := by decide
example : extractSubdomain (some "a:b.localhost") = none := by decide

/-! ## Sample objects used by witnesses -/

/-- A network oracle on which every backend connection attempt fails. -/
def noNetwork : Request → Except String Response := fun _ => .error "ECONNREFUSED"

/-- A plain GET request with the given headers. -/
def getReq (hs : List (String × String)) : Request :=
  { scheme := "http", host := "localhost", port := 9999, path := "/", query := "",
    method := "GET", headers := hs, body := none, redirect := "follow" }

/-! ## Claim C1 -/

/-- C1: for every request whose `Host` header resolves (after stripping a
trailing `:port`) to `<name>.localhost` with non-empty `<name>` other than
`_`, if the current service mapping has no entry for `<name>`, the response
status is exactly 404. -/
theorem C1_unmapped_subdomain_gives_404
    (network : Request → Except String Response) (dash : String) (upgradeOk : Bool)
    (mapping : List (String × Nat)) (req : Request) (host name : String)
    (hhost : headersGet req.headers "host" = some host)
    (hstrip : stripPort host = name ++ ".localhost")
    (hne : name ≠ "") (hund : name ≠ "_")
    (hmiss : mapping.lookup name = none) :
    (serve network dash upgradeOk mapping req).status = 404 := by
  have hroute : route (isWebSocketUpgrade req) mapping (some host) = .notFound name := by
    simp only [route, extractSubdomain, hstrip, subdomainOfHostname_append name hne]
    simp [hund, hmiss]
  simp [serve, hhost, hroute, notFoundResponse]

theorem C1_unmapped_subdomain_gives_404_witness :
    headersGet (getReq [("Host", "app.localhost:9999")]).headers "host"
      = some "app.localhost:9999" ∧
    stripPort "app.localhost:9999" = "app" ++ ".localhost" ∧
    ("app" : String) ≠ "" ∧ ("app" : String) ≠ "_" ∧
    ([("other", 3000)] : List (String × Nat)).lookup "app" = none ∧
    (serve noNetwork "dash" false [("other", 3000)]
      (getReq [("Host", "app.localhost:9999")])).status = 404 :=
  ⟨by decide, by decide, by decide, by decide, by decide,
   C1_unmapped_subdomain_gives_404 noNetwork "dash" false [("other", 3000)]
     (getReq [("Host", "app.localhost:9999")]) "app.localhost:9999" "app"
     (by decide) (by decide) (by decide) (by decide) (by decide)⟩

/-! ## Claim C4 -/

/-- C4: a request whose `Host` hostname (after stripping `:port`) equals
`localhost`, or ends with `.localhost` with an empty or `_` prefix, gets the
dashboard response; the result is the same for every mapping, so no mapping
lookup takes place. -/
theorem C4_dashboard_hosts
    (network : Request → Except String Response) (dash : String) (upgradeOk : Bool)
    (mapping : List (String × Nat)) (req : Request) (host : String)
    (hhost : headersGet req.headers "host" = some host)
    (hdash : stripPort host = "localhost" ∨ stripPort host = ".localhost" ∨
      stripPort host = "_.localhost") :
    serve network dash upgradeOk mapping req = dashboardResponse dash := by
  have e1 : subdomainOfHostname "localhost" = none := by decide
  have e2 : subdomainOfHostname ".localhost" = none := by decide
  have e3 : subdomainOfHostname "_.localhost" = some "_" := by decide
  rcases hdash with h | h | h <;>
    simp [serve, route, extractSubdomain, hhost, h, e1, e2, e3]

theorem C4_dashboard_hosts_witness :
    headersGet (getReq [("Host", "localhost:9999")]).headers "host"
      = some "localhost:9999" ∧
    stripPort "localhost:9999" = "localhost" ∧
    serve noNetwork "dash" false [("app", 3000)]
      (getReq [("Host", "localhost:9999")]) = dashboardResponse "dash" :=
  ⟨by decide, by decide,
   C4_dashboard_hosts noNetwork "dash" false [("app", 3000)]
     (getReq [("Host", "localhost:9999")]) "localhost:9999"
     (by decide) (Or.inl (by decide))⟩

/-! ## Claim C10 -/

/-- C10: a request with no `Host` header, or whose hostname (after stripping
`:port`) neither equals `localhost` nor ends with `.localhost`, gets the
dashboard response for every mapping — never a 404, never a forward proxy. -/
theorem C10_foreign_host_gives_dashboard
    (network : Request → Except String Response) (dash : String) (upgradeOk : Bool)
    (mapping : List (String × Nat)) (req : Request)
    (hhost : headersGet req.headers "host" = none ∨
      ∃ host, headersGet req.headers "host" = some host ∧
        stripPort host ≠ "localhost" ∧ strEndsWith (stripPort host) ".localhost" = false) :
    serve network dash upgradeOk mapping req = dashboardResponse dash := by
  rcases hhost with h | ⟨host, hh, h1, h2⟩
  · simp [serve, route, extractSubdomain, h]
  · have hsub : subdomainOfHostname (stripPort host) = none := by
      simp [subdomainOfHostname, h1, h2]
    simp [serve, route, extractSubdomain, hh, hsub]

theorem C10_foreign_host_gives_dashboard_witness :
    (headersGet (getReq [("Host", "example.com")]).headers "host" = some "example.com" ∧
      stripPort "example.com" ≠ "localhost" ∧
      strEndsWith (stripPort "example.com") ".localhost" = false) ∧
    serve noNetwork "dash" false [("app", 3000)]
      (getReq [("Host", "example.com")]) = dashboardResponse "dash" :=
  ⟨⟨by decide, by decide, by decide⟩,
   C10_foreign_host_gives_dashboard noNetwork "dash" false [("app", 3000)]
     (getReq [("Host", "example.com")])
     (Or.inr ⟨"example.com", by decide, by decide, by decide⟩)⟩

/-! ## Claim C2 -/

/-- C2: whenever the transport-level attempt to reach the backend fails,
`proxyRequest` returns status exactly 502 with a plaintext body naming the
attempted target port. -/
theorem C2_transport_failure_gives_502
    (network : Request → Except String Response) (req : Request) (targetPort : Nat)
    (e : String)
    (hfail : network (buildProxyRequest req targetPort) = .error e) :
    (proxyRequest network req targetPort).status = 502 ∧
    ∃ pre post, (proxyRequest network req targetPort).body
      = pre ++ toString targetPort ++ post := by
  constructor
  · simp [proxyRequest, hfail]
  · refine ⟨"Failed to proxy to port ", ": " ++ e, ?_⟩
    simp [proxyRequest, hfail, String.append_assoc]

theorem C2_transport_failure_gives_502_witness :
    noNetwork (buildProxyRequest (getReq [("Host", "app.localhost:9999")]) 3000)
      = .error "ECONNREFUSED" ∧
    ((proxyRequest noNetwork (getReq [("Host", "app.localhost:9999")]) 3000).status = 502 ∧
      ∃ pre post,
        (proxyRequest noNetwork (getReq [("Host", "app.localhost:9999")]) 3000).body
          = pre ++ toString 3000 ++ post) :=
  ⟨rfl, C2_transport_failure_gives_502 noNetwork
    (getReq [("Host", "app.localhost:9999")]) 3000 "ECONNREFUSED" rfl⟩

/-! ## Claim C3 -/

/-- A concrete request, redirect response and network used by the C3 witness. -/
def c3req : Request :=
  getReq [("Host", "app.localhost:9999"), ("If-None-Match", "etag1"), ("Accept", "*/*")]

def c3resp : Response := { status := 302, headers := [("Location", "/next")], body := "" }

def c3net : Request → Except String Response := fun _ => .ok c3resp

/-- C3: `proxyRequest` forwards the request with URL rewritten to host
`localhost` and the target port, preserving scheme, path, query, method and
body; the forwarded headers are the original headers minus exactly
`If-None-Match` and `If-Modified-Since` (case-insensitively); the outbound
request does not auto-follow redirects; and the backend response — in
particular a 3xx status and its `Location` header — is returned to the
client verbatim. -/
theorem C3_proxy_forwards_rewritten_request
    (network : Request → Except String Response) (req : Request) (targetPort : Nat)
    (resp : Response)
    (hok : network (buildProxyRequest req targetPort) = .ok resp) :
    (buildProxyRequest req targetPort).host = "localhost" ∧
    (buildProxyRequest req targetPort).port = targetPort ∧
    (buildProxyRequest req targetPort).scheme = req.scheme ∧
    (buildProxyRequest req targetPort).path = req.path ∧
    (buildProxyRequest req targetPort).query = req.query ∧
    (buildProxyRequest req targetPort).method = req.method ∧
    (buildProxyRequest req targetPort).body = req.body ∧
    (buildProxyRequest req targetPort).headers = req.headers.filter (fun p =>
      !(lowerStr p.1 == "if-none-match") && !(lowerStr p.1 == "if-modified-since")) ∧
    (buildProxyRequest req targetPort).redirect = "manual" ∧
    proxyRequest network req targetPort = resp := by
  refine ⟨rfl, rfl, rfl, rfl, rfl, rfl, rfl, ?_, rfl, ?_⟩
  · show headersDelete (headersDelete req.headers "If-None-Match")
      "If-Modified-Since" = _
    have hl1 : lowerStr "If-None-Match" = "if-none-match" := by decide
    have hl2 : lowerStr "If-Modified-Since" = "if-modified-since" := by decide
    simp only [headersDelete, hl1, hl2]
    rw [List.filter_filter]
    simp [Bool.and_comm]
  · simp [proxyRequest, hok]

theorem C3_proxy_forwards_rewritten_request_witness :
    c3net (buildProxyRequest c3req 3000) = .ok c3resp ∧
    ((buildProxyRequest c3req 3000).host = "localhost" ∧
      (buildProxyRequest c3req 3000).port = 3000 ∧
      (buildProxyRequest c3req 3000).scheme = c3req.scheme ∧
      (buildProxyRequest c3req 3000).path = c3req.path ∧
      (buildProxyRequest c3req 3000).query = c3req.query ∧
      (buildProxyRequest c3req 3000).method = c3req.method ∧
      (buildProxyRequest c3req 3000).body = c3req.body ∧
      (buildProxyRequest c3req 3000).headers = c3req.headers.filter (fun p =>
        !(lowerStr p.1 == "if-none-match") && !(lowerStr p.1 == "if-modified-since")) ∧
      (buildProxyRequest c3req 3000).redirect = "manual" ∧
      proxyRequest c3net c3req 3000 = c3resp) :=
  ⟨rfl, C3_proxy_forwards_rewritten_request c3net c3req 3000 c3resp rfl⟩

/-! ## Claim C5 -/

/-- C5: `getMapping` issues a registry scan if and only if
`now - lastScan > 5000` ms; when it does not, it returns the cached mapping
snapshot and leaves the state unchanged; when it does, the cache is replaced
wholesale by the scan result, which is also what the call returns. -/
theorem C5_getMapping_ttl_refresh
    (buildResult : List (String × Nat)) (now : Int) (st : DaemonState) :
    ((getMapping buildResult now st).2.scansIssued = st.scansIssued + 1 ↔
      now - st.lastScan > CACHE_TTL_MS) ∧
    (¬(now - st.lastScan > CACHE_TTL_MS) →
      getMapping buildResult now st = (st.mappingCache, st)) ∧
    (now - st.lastScan > CACHE_TTL_MS →
      (getMapping buildResult now st).1 = buildResult ∧
      (getMapping buildResult now st).2.mappingCache = buildResult ∧
      (getMapping buildResult now st).2.lastScan = now) := by
  by_cases h : now - st.lastScan > CACHE_TTL_MS <;> simp [getMapping, h]

theorem C5_getMapping_ttl_refresh_witness :
    ((getMapping [("app", 3000)] 6000 initialDaemonState).1 = [("app", 3000)] ∧
      (getMapping [("app", 3000)] 6000 initialDaemonState).2.mappingCache
        = [("app", 3000)] ∧
      (getMapping [("app", 3000)] 6000 initialDaemonState).2.lastScan = 6000) ∧
    getMapping [("other", 4000)] 9000
        { mappingCache := [("app", 3000)], lastScan := 6000, scansIssued := 1 }
      = ([("app", 3000)],
         { mappingCache := [("app", 3000)], lastScan := 6000, scansIssued := 1 }) :=
  ⟨(C5_getMapping_ttl_refresh [("app", 3000)] 6000 initialDaemonState).2.2
      (by decide),
   (C5_getMapping_ttl_refresh [("other", 4000)] 9000
      { mappingCache := [("app", 3000)], lastScan := 6000, scansIssued := 1 }).2.1
      (by decide)⟩

/-! ## Claim C6 -/

/-- C6 (the code violates it): `getMapping` has no single-flight guard —
`lastScan` is only assigned after the `await buildMapping()` resolves, so
two requests that both run the staleness check before either scan resolves
(two concurrent requests at `now = 6000` right after startup) each call
`buildMapping()`: two scans are issued, where the claim requires exactly
one. -/
theorem C6_concurrent_staleness_issues_two_scans :
    (mapRun initialDaemonState
      [MapEvent.check 6000 [("app", 3000)],
       MapEvent.check 6000 [("app", 3000)],
       MapEvent.resolve 6000 [("app", 3000)],
       MapEvent.resolve 6000 [("app", 3000)]]).scansIssued = 2 := by
  decide

/-! ## Claim C7 -/

/-- C7: with the CA loaded, (a) an immediately repeated `getCert` call for
the same hostname returns the identical cached cert/key entry — hence
byte-identical PEM output — from any starting state; and (b) starting from
an empty cache, calls for two different hostnames return entries with
distinct key material whose subject CN and SAN DNS entry match their
respective hostnames, provided the key generator never repeats material
(fresh randomness on each invocation). -/
theorem C7_getCert_cached_and_distinct
    (ca : CA) (rnd : Nat → Nat) (now1 now2 : Nat) (hostname : String)
    (st : CertState) (n : Nat) (h1 h2 : String)
    (hne : h1 ≠ h2) (hinj : Function.Injective rnd) :
    (getCert (some ca) rnd now2 hostname
        (getCert (some ca) rnd now1 hostname st).2).1
      = (getCert (some ca) rnd now1 hostname st).1 ∧
    (∃ e1 e2,
      (getCert (some ca) rnd now1 h1 ⟨[], n⟩).1 = some e1 ∧
      (getCert (some ca) rnd now2 h2
          (getCert (some ca) rnd now1 h1 ⟨[], n⟩).2).1 = some e2 ∧
      e1.key.material ≠ e2.key.material ∧
      e1.cert.subjectCN = h1 ∧ e1.cert.sanDNSNames = [h1] ∧
      e2.cert.subjectCN = h2 ∧ e2.cert.sanDNSNames = [h2]) := by
  constructor
  · cases hc : st.certCache.lookup hostname with
    | some cached => simp [getCert, hc]
    | none => simp [getCert, hc, List.lookup]
  · have hb : (h2 == h1) = false := beq_eq_false_iff_ne.mpr (Ne.symm hne)
    refine ⟨{ cert := makeLeafCert ca (generateKeyPair rnd 2048 n) now1 h1,
              key := generateKeyPair rnd 2048 n },
            { cert := makeLeafCert ca (generateKeyPair rnd 2048 (n + 1)) now2 h2,
              key := generateKeyPair rnd 2048 (n + 1) },
            rfl, ?_, ?_, rfl, rfl, rfl, rfl⟩
    · simp [getCert, List.lookup, hb]
    · exact hinj.ne (by omega)

theorem C7_getCert_cached_and_distinct_witness :
    ("a.localhost" : String) ≠ "b.localhost" ∧
    ((getCert (some ⟨"mkcert root CA", 7⟩) id 2000 "app.localhost"
        (getCert (some ⟨"mkcert root CA", 7⟩) id 1000 "app.localhost"
          initialCertState).2).1
      = (getCert (some ⟨"mkcert root CA", 7⟩) id 1000 "app.localhost"
          initialCertState).1 ∧
     (∃ e1 e2,
      (getCert (some ⟨"mkcert root CA", 7⟩) id 1000 "a.localhost" ⟨[], 0⟩).1
        = some e1 ∧
      (getCert (some ⟨"mkcert root CA", 7⟩) id 2000 "b.localhost"
          (getCert (some ⟨"mkcert root CA", 7⟩) id 1000 "a.localhost" ⟨[], 0⟩).2).1
        = some e2 ∧
      e1.key.material ≠ e2.key.material ∧
      e1.cert.subjectCN = "a.localhost" ∧ e1.cert.sanDNSNames = ["a.localhost"] ∧
      e2.cert.subjectCN = "b.localhost" ∧
      e2.cert.sanDNSNames = ["b.localhost"])) :=
  ⟨by decide,
   C7_getCert_cached_and_distinct ⟨"mkcert root CA", 7⟩ id 1000 2000
     "app.localhost" initialCertState 0 "a.localhost" "b.localhost"
     (by decide) Function.injective_id⟩

/-! ## Claim C8 -/

/-- C8: with the CA loaded, every leaf certificate produced by `getCert` on
a cache miss has a 2048-bit key, serial number derived from the current
time (its hexadecimal rendering), validity from `now` to
`now + 365 days`, subject CN and SAN DNS entry equal to the hostname,
issuer the CA subject, extensions `basicConstraints CA:false`,
`keyUsage digitalSignature, keyEncipherment` and `extKeyUsage serverAuth`,
and is signed with the CA private key using SHA-256. -/
theorem C8_leaf_certificate_fields
    (ca : CA) (rnd : Nat → Nat) (now : Nat) (hostname : String) (st : CertState)
    (hmiss : st.certCache.lookup hostname = none) :
    ∃ e, (getCert (some ca) rnd now hostname st).1 = some e ∧
      e.key.bits = 2048 ∧
      e.cert.keyBits = 2048 ∧
      e.cert.serialNumber = hexString now ∧
      e.cert.notBefore = now ∧
      e.cert.notAfter = now + 365 * 24 * 60 * 60 * 1000 ∧
      e.cert.subjectCN = hostname ∧
      e.cert.sanDNSNames = [hostname] ∧
      e.cert.issuer = ca.subject ∧
      e.cert.basicConstraintsCA = false ∧
      e.cert.keyUsageDigitalSignature = true ∧
      e.cert.keyUsageKeyEncipherment = true ∧
      e.cert.extKeyUsageServerAuth = true ∧
      e.cert.signedWithKey = ca.privateKey ∧
      e.cert.signatureHash = "sha256" := by
  refine ⟨{ cert := makeLeafCert ca (generateKeyPair rnd 2048 st.rngCounter)
              now hostname,
            key := generateKeyPair rnd 2048 st.rngCounter },
          ?_, rfl, rfl, rfl, rfl, rfl, rfl, rfl, rfl, rfl, rfl, rfl, rfl, rfl, rfl⟩
  simp [getCert, hmiss]

theorem C8_leaf_certificate_fields_witness :
    (initialCertState.certCache.lookup "app.localhost" = none) ∧
    (∃ e, (getCert (some ⟨"mkcert root CA", 7⟩) id 1700000000000 "app.localhost"
        initialCertState).1 = some e ∧
      e.key.bits = 2048 ∧
      e.cert.keyBits = 2048 ∧
      e.cert.serialNumber = hexString 1700000000000 ∧
      e.cert.notBefore = 1700000000000 ∧
      e.cert.notAfter = 1700000000000 + 365 * 24 * 60 * 60 * 1000 ∧
      e.cert.subjectCN = "app.localhost" ∧
      e.cert.sanDNSNames = ["app.localhost"] ∧
      e.cert.issuer = "mkcert root CA" ∧
      e.cert.basicConstraintsCA = false ∧
      e.cert.keyUsageDigitalSignature = true ∧
      e.cert.keyUsageKeyEncipherment = true ∧
      e.cert.extKeyUsageServerAuth = true ∧
      e.cert.signedWithKey = 7 ∧
      e.cert.signatureHash = "sha256") :=
  ⟨rfl,
   C8_leaf_certificate_fields ⟨"mkcert root CA", 7⟩ id 1700000000000
     "app.localhost" initialCertState rfl⟩

/-! ## Claim C9 -/

/-- C9 (refuted as stated): a transport-level error on the client side does
not close the client with code 1011 — no client-side `error` callback is
registered in the Bun websocket handler object, so the event dispatches to
nothing and no action is performed. -/
theorem C9_counterexample_client_error_unhandled :
    clientHandlers true true ClientEvent.error = [] ∧
    WsAction.closeClient 1011 "Backend error"
      ∉ clientHandlers true true ClientEvent.error := by
  decide

/-- C9 (amended): either side closing with `(code, reason)` closes the
other side with the same `(code, reason)` — for the client side, while the
pair is registered in `wsBackends` — and a transport-level error on the
backend side closes the client with code 1011 and the fixed reason
`Backend error`; client-side transport errors have no registered handler. -/
theorem C9_close_propagation_and_backend_error
    (code : Nat) (reason : String) (backendOpen : Bool) :
    backendHandlers (BackendEvent.close code reason)
      = [WsAction.closeClient code reason] ∧
    clientHandlers true backendOpen (ClientEvent.close code reason)
      = [WsAction.closeBackend code reason, WsAction.removePair] ∧
    backendHandlers BackendEvent.error
      = [WsAction.closeClient 1011 "Backend error"] :=
  ⟨rfl, rfl, rfl⟩

end Localhome
